import Mathlib

/-!
Verification of the mplex session engine (`multiplex.go`, package `multiplex`)
against its natural-language specification.  Pure functions are translated
directly from the Go source; machine integers are `Nat` with an explicit
`% 2 ^ 64` where Go `uint64` wrap-around matters; fallible code returns
`Except`.  The per-frame work of the single-threaded receive loop is embedded
as a step function over an explicit session state, with the outcome of each
`select` rendezvous supplied by an oracle argument.  Declarations for parts of
the repository that are not in the source tree (`stream.go`) are modelled from
the spec and say so in their doc comments.
-/

namespace Mplex

/-- Default message size bound from multiplex.go: `var MaxMessageSize = 1 << 20`. -/
def MaxMessageSize : Nat := 1 <<< 20

/-- Default buffer-slot target from multiplex.go: `var MaxBuffers = 4`. -/
def MaxBuffers : Nat := 4

/-- Frame tag `newStreamTag = 0` from multiplex.go. -/
def newStreamTag : Nat := 0

/-- Frame tag `messageTag = 2` from multiplex.go. -/
def messageTag : Nat := 2

/-- Frame tag `closeTag = 4` from multiplex.go. -/
def closeTag : Nat := 4

/-- Frame tag `resetTag = 6` from multiplex.go. -/
def resetTag : Nat := 6

/-- Error values of the engine.  `eof`, `underflow`, `overflow` and
`notMinimal` are the read errors of `varint.ReadUvarint`; `messageTooLarge`
is the `"message size too large"` error of `readNext`; the rest are the
named errors of multiplex.go and stream.go, plus `ctxCanceled` standing for
the caller's `ctx.Err()` and `reservationFailed` standing for an error
returned by an external `MemoryManager.ReserveMemory`. -/
inductive MplexError where
  | eof
  | underflow
  | overflow
  | notMinimal
  | messageTooLarge
  | shutdown
  | invalidState
  | streamReset
  | streamClosed
  | timeout
  | ctxCanceled
  | reservationFailed
  deriving DecidableEq

/-- Fuel-indexed body of `binary.PutUvarint`: while `x >= 0x80` emit
`byte(x) | 0x80` and shift by seven bits, then emit the final byte.  The
fuel only bounds the recursion depth; `putUvarintGo fuel x` agrees with the
untruncated loop whenever `x < 128 ^ fuel` (see `putUvarintGo_fuel`). -/
def putUvarintGo : Nat → Nat → List Nat
  | 0, x => [x]
  | fuel + 1, x => if x < 128 then [x] else (x % 128 + 128) :: putUvarintGo fuel (x / 128)

/-- `binary.PutUvarint` on a `uint64` value: ten fuel steps cover every
`x < 128 ^ 10 = 2 ^ 70`, in particular every 64-bit value. -/
def putUvarint (x : Nat) : List Nat := putUvarintGo 10 x

theorem putUvarintGo_fuel :
    ∀ f1 f2 x, x < 128 ^ f1 → x < 128 ^ f2 → putUvarintGo f1 x = putUvarintGo f2 x := by
  intro f1
  induction f1 with
  | zero =>
    intro f2 x h1 _
    have hx : x = 0 := by simpa using h1
    subst hx
    cases f2 with
    | zero => rfl
    | succ g => simp [putUvarintGo]
  | succ f ih =>
    intro f2 x h1 h2
    cases f2 with
    | zero =>
      have hx : x = 0 := by simpa using h2
      subst hx
      simp [putUvarintGo]
    | succ g =>
      by_cases hx : x < 128
      · simp [putUvarintGo, hx]
      · have hd1 : x / 128 < 128 ^ f := by
          rw [Nat.div_lt_iff_lt_mul (by omega)]
          calc x < 128 ^ (f + 1) := h1
            _ = 128 ^ f * 128 := by rw [pow_succ]
        have hd2 : x / 128 < 128 ^ g := by
          rw [Nat.div_lt_iff_lt_mul (by omega)]
          calc x < 128 ^ (g + 1) := h2
            _ = 128 ^ g * 128 := by rw [pow_succ]
        simp only [putUvarintGo, if_neg hx]
        rw [ih g (x / 128) hd1 hd2]

theorem putUvarintGo_succ_ge (fuel x : Nat) (h : 128 ≤ x) :
    putUvarintGo (fuel + 1) x = (x % 128 + 128) :: putUvarintGo fuel (x / 128) := by
  simp only [putUvarintGo, if_neg (by omega : ¬ x < 128)]

theorem putUvarint_lt {x : Nat} (h : x < 128) : putUvarint x = [x] := by
  simp [putUvarint, putUvarintGo, h]

theorem putUvarint_ge {x : Nat} (h : 128 ≤ x) (hbound : x < 128 ^ 10) :
    putUvarint x = (x % 128 + 128) :: putUvarint (x / 128) := by
  have hd : x / 128 < 128 ^ 9 := by
    rw [Nat.div_lt_iff_lt_mul (by omega)]
    calc x < 128 ^ 10 := hbound
      _ = 128 ^ 9 * 128 := by rw [pow_succ]
  have hd10 : x / 128 < 128 ^ 10 := lt_of_lt_of_le hd (Nat.pow_le_pow_right (by omega) (by omega))
  have h1 : putUvarintGo (9 + 1) x = (x % 128 + 128) :: putUvarintGo 9 (x / 128) :=
    putUvarintGo_succ_ge 9 x h
  have h2 : putUvarintGo 9 (x / 128) = putUvarintGo 10 (x / 128) :=
    putUvarintGo_fuel 9 10 (x / 128) hd hd10
  show putUvarintGo 10 x = (x % 128 + 128) :: putUvarintGo 10 (x / 128)
  rw [← h2, ← h1]

/-- Length bound for the encoder: a value below `128 ^ (k + 1)` encodes in at
most `k + 1` bytes. -/
theorem putUvarintGo_length :
    ∀ k x, x < 128 ^ (k + 1) → (putUvarintGo (k + 1) x).length ≤ k + 1 := by
  intro k
  induction k with
  | zero =>
    intro x h
    have hx : x < 128 := by simpa using h
    simp [putUvarintGo, hx]
  | succ k ih =>
    intro x h
    by_cases hx : x < 128
    · simp [putUvarintGo, hx]
    · have hd : x / 128 < 128 ^ (k + 1) := by
        rw [Nat.div_lt_iff_lt_mul (by omega)]
        calc x < 128 ^ (k + 2) := h
          _ = 128 ^ (k + 1) * 128 := by rw [pow_succ]
      rw [putUvarintGo_succ_ge (k + 1) x (by omega), List.length_cons]
      have := ih (x / 128) hd
      omega

theorem putUvarint_length {x : Nat} (h : x < 2 ^ 64) : (putUvarint x).length ≤ 10 := by
  have hb : x < 128 ^ 10 := by
    calc x < 2 ^ 64 := h
      _ ≤ 128 ^ 10 := by norm_num
  exact putUvarintGo_length 9 x hb

/-- Loop body of `varint.ReadUvarint` (multiformats/go-varint), structurally
recursive over the byte list.  The accumulator `x` and shift `s` mirror the Go
locals; the decoder refuses a ninth continuation byte or a shift of 63 or more
(`ErrOverflow`, limiting decoded values to 63 bits), refuses a trailing zero
byte (`ErrNotMinimal`), and reports `io.EOF` / `ErrUnderflow` when the input
ends. -/
def readUvarintAux : List Nat → Nat → Nat → Except MplexError (Nat × List Nat)
  | [], _, s => .error (if s = 0 then .eof else .underflow)
  | b :: rest, x, s =>
    if (s = 56 ∧ 128 ≤ b) ∨ 63 ≤ s then
      .error .overflow
    else if b < 128 then
      if b = 0 ∧ 0 < s then
        .error .notMinimal
      else
        .ok (x ||| (b <<< s), rest)
    else
      readUvarintAux rest (x ||| ((b &&& 127) <<< s)) (s + 7)

/-- `varint.ReadUvarint` over a byte list, returning the decoded value and the
unconsumed remainder. -/
def readUvarint (bs : List Nat) : Except MplexError (Nat × List Nat) :=
  readUvarintAux bs 0 0

/-- Disjoint bit ranges combine by addition: below the shift the accumulator
owns every bit. -/
theorem lor_shiftLeft_eq_add {a : Nat} (b s : Nat) (h : a < 2 ^ s) :
    a ||| (b <<< s) = a + b * 2 ^ s := by
  rw [Nat.shiftLeft_eq, Nat.mul_comm b, Nat.or_comm, ← Nat.mul_add_lt_is_or h, Nat.add_comm]

theorem and_127_eq_mod (b : Nat) : b &&& 127 = b % 128 := by
  have h7 : (127 : Nat) = 2 ^ 7 - 1 := by norm_num
  rw [h7, Nat.and_pow_two_sub_one_eq_mod]

/-- Decoding an encoded value with accumulator `acc` and shift `s` succeeds and
adds the value, shifted into place, to the accumulator. -/
theorem readUvarintAux_putUvarint :
    ∀ x acc s rest, acc < 2 ^ s → x * 2 ^ s < 2 ^ 63 → (s = 0 ∨ x ≠ 0) →
      readUvarintAux (putUvarint x ++ rest) acc s = .ok (acc + x * 2 ^ s, rest) := by
  intro x
  induction x using Nat.strong_induction_on with
  | _ x ih =>
    intro acc s rest hacc hlt hz
    have hs63 : s < 63 := by
      by_contra hge
      have hp : (2 : Nat) ^ 63 ≤ 2 ^ s := Nat.pow_le_pow_right (by omega) (by omega)
      rcases hz with hz | hz
      · omega
      · have hx1 : 1 ≤ x := Nat.one_le_iff_ne_zero.mpr hz
        have : 2 ^ s ≤ x * 2 ^ s := Nat.le_mul_of_pos_left _ (by omega)
        omega
    by_cases hx : x < 128
    · rw [putUvarint_lt hx]
      show readUvarintAux (x :: rest) acc s = _
      have hc1 : ¬ ((s = 56 ∧ 128 ≤ x) ∨ 63 ≤ s) := by omega
      have hc2 : ¬ (x = 0 ∧ 0 < s) := by
        rcases hz with hz | hz
        · omega
        · exact fun hand => hz hand.1
      simp only [readUvarintAux, if_neg hc1, if_pos hx, if_neg hc2]
      rw [lor_shiftLeft_eq_add x s hacc]
    · have hxle : x ≤ x * 2 ^ s := Nat.le_mul_of_pos_right x (Nat.two_pow_pos s)
      have hbound : x < 128 ^ 10 := by
        have hx63 : x < 2 ^ 63 := by omega
        calc x < 2 ^ 63 := hx63
          _ ≤ 128 ^ 10 := by norm_num
      rw [putUvarint_ge (by omega) hbound]
      show readUvarintAux ((x % 128 + 128) :: (putUvarint (x / 128) ++ rest)) acc s = _
      have hs56 : s ≠ 56 := by
        intro hs
        subst hs
        have hmul : x * 2 ^ 56 < 128 * 2 ^ 56 := by
          calc x * 2 ^ 56 < 2 ^ 63 := hlt
            _ = 128 * 2 ^ 56 := by norm_num
        have : x < 128 := Nat.lt_of_mul_lt_mul_right hmul
        omega
      have hc1 : ¬ ((s = 56 ∧ 128 ≤ x % 128 + 128) ∨ 63 ≤ s) := by omega
      have hc2 : ¬ (x % 128 + 128 < 128) := by omega
      simp only [readUvarintAux, if_neg hc1, if_neg hc2]
      have hmask : (x % 128 + 128) &&& 127 = x % 128 := by
        rw [and_127_eq_mod]
        omega
      rw [hmask, lor_shiftLeft_eq_add (x % 128) s hacc]
      have hpow : (2 : Nat) ^ (s + 7) = 2 ^ s * 128 := by
        rw [pow_add]
        norm_num
      have hacc2 : acc + x % 128 * 2 ^ s < 2 ^ (s + 7) := by
        have hmodle : x % 128 * 2 ^ s ≤ 127 * 2 ^ s :=
          Nat.mul_le_mul_right _ (by omega)
        rw [hpow]
        omega
      have hlt2 : x / 128 * 2 ^ (s + 7) < 2 ^ 63 := by
        have hkey : x / 128 * 2 ^ (s + 7) ≤ x * 2 ^ s := by
          rw [hpow]
          calc x / 128 * (2 ^ s * 128) = x / 128 * 128 * 2 ^ s := by ring
            _ ≤ x * 2 ^ s := Nat.mul_le_mul_right _ (Nat.div_mul_le_self x 128)
        omega
      have hz2 : s + 7 = 0 ∨ x / 128 ≠ 0 := by
        right
        have : 0 < x / 128 := Nat.div_pos (by omega) (by omega)
        omega
      rw [ih (x / 128) (Nat.div_lt_self (by omega) (by omega)) _ _ _ hacc2 hlt2 hz2]
      have hsum : x % 128 * 2 ^ s + x / 128 * 2 ^ (s + 7) = x * 2 ^ s := by
        rw [hpow]
        have hx128 : x % 128 + 128 * (x / 128) = x := Nat.mod_add_div x 128
        calc x % 128 * 2 ^ s + x / 128 * (2 ^ s * 128)
            = (x % 128 + 128 * (x / 128)) * 2 ^ s := by ring
          _ = x * 2 ^ s := by rw [hx128]
      rw [show acc + x % 128 * 2 ^ s + x / 128 * 2 ^ (s + 7) = acc + x * 2 ^ s from by omega]

/-- Round trip of the varint codec on any value the decoder accepts (below
`2 ^ 63`): decoding an encoding returns the value and leaves trailing bytes
untouched. -/
theorem readUvarint_putUvarint {x : Nat} (rest : List Nat) (h : x < 2 ^ 63) :
    readUvarint (putUvarint x ++ rest) = .ok (x, rest) := by
  have := readUvarintAux_putUvarint x 0 0 rest (by norm_num) (by simpa using h) (Or.inl rfl)
  simpa using this

/-- Modelled from the spec: stream.go is not under src/.  `streamID` is the
pair `(id, initiator)` keying the session's stream map, where `initiator` is
true iff this side originated the stream (§3 StreamId). -/
structure streamID where
  id : Nat
  initiator : Bool
  deriving DecidableEq

/-- Modelled from the spec: stream.go is not under src/.  The per-stream state
the receive loop touches (§3 Stream): the name, the bounded inbound queue
`dataIn` together with its data-channel-closed flag, the one-shot read and
write cancel signals carrying their terminal error, and the absolute read and
write deadlines. -/
structure StreamState where
  name : List Nat
  dataIn : List (List Nat)
  dataInClosed : Bool
  readCancel : Option MplexError
  writeCancel : Option MplexError
  rDeadline : Option Nat
  wDeadline : Option Nat
  deriving DecidableEq

/-- `Multiplex.newStream`: a fresh stream with an empty inbound queue, an open
data channel, unfired cancel signals and unset deadlines. -/
def newStream (name : List Nat) : StreamState :=
  { name := name, dataIn := [], dataInClosed := false, readCancel := none,
    writeCancel := none, rDeadline := none, wDeadline := none }

/-- Lookup in the stream map `mp.channels`, embedded as an association list. -/
def mapLookup (m : List (streamID × StreamState)) (k : streamID) : Option StreamState :=
  match m with
  | [] => none
  | (k0, v0) :: rest => if k0 = k then some v0 else mapLookup rest k

/-- Insertion `mp.channels[ch] = msch` (replacing any previous entry). -/
def mapInsert (m : List (streamID × StreamState)) (k : streamID) (v : StreamState) :
    List (streamID × StreamState) :=
  match m with
  | [] => [(k, v)]
  | (k0, v0) :: rest => if k0 = k then (k, v) :: rest else (k0, v0) :: mapInsert rest k v

/-- Deletion `delete(mp.channels, ch)`. -/
def mapErase (m : List (streamID × StreamState)) (k : streamID) :
    List (streamID × StreamState) :=
  match m with
  | [] => []
  | (k0, v0) :: rest => if k0 = k then rest else (k0, v0) :: mapErase rest k

/-- Session state as seen by the receive loop: the stream map `mp.channels`,
the occupancy of the inbound buffer semaphore `bufIn` (number of slots
currently held), the recorded shutdown cause `mp.shutdownErr`, the accept
queue `mp.nstreams`, and — a ghost observation only, written by nothing in
the Go source — the final states of streams whose data channel the loop
closed, so that theorems can still inspect a stream after its removal from
the map. -/
structure RecvState where
  channels : List (streamID × StreamState)
  slotsIn : Nat
  shutdownErr : Option MplexError
  nstreams : List streamID
  closedStreams : List (streamID × StreamState)
  deriving DecidableEq

/-- `Multiplex.putBufferInbound`: return a payload buffer, releasing one
inbound semaphore slot. -/
def putBufferInbound (mp : RecvState) : RecvState :=
  { mp with slotsIn := mp.slotsIn - 1 }

/-- `Multiplex.readNextHeader`: decode one uvarint `h` and split it as
channel id `h >> 3` and tag `h & 7`. -/
def readNextHeader (bs : List Nat) : Except MplexError ((Nat × Nat) × List Nat) :=
  match readUvarint bs with
  | .error e => .error e
  | .ok (h, rest) => .ok ((h >>> 3, h &&& 7), rest)

/-- `Multiplex.readNext`: decode the length uvarint, reject
`l > MaxMessageSize` with the message-size error, return a nil payload for
`l = 0` without touching the inbound semaphore, and otherwise acquire one
inbound slot (`getBufferInbound`) and read exactly `l` payload bytes
(`io.ReadFull`).  Blocking of the slot acquisition and its race with shutdown
are not modelled: a successful acquisition is the increment of `slotsIn`. -/
def readNext (mp : RecvState) (bs : List Nat) :
    Except MplexError (List Nat × List Nat × RecvState) :=
  match readUvarint bs with
  | .error e => .error e
  | .ok (l, rest) =>
    if MaxMessageSize < l then .error .messageTooLarge
    else if l = 0 then .ok ([], rest, mp)
    else if rest.length < l then .error .eof
    else .ok (rest.take l, rest.drop l, { mp with slotsIn := mp.slotsIn + 1 })

/-- Receive-loop derivation `remoteIsInitiator := tag&1 == 0`. -/
def remoteIsInitiator (tag : Nat) : Bool := tag &&& 1 == 0

/-- Receive-loop stream-map key: `streamID{initiator: !remoteIsInitiator, id: chID}`. -/
def frameStreamID (chID tag : Nat) : streamID :=
  { id := chID, initiator := !remoteIsInitiator tag }

/-- Receive-loop tag normalisation `tag += (tag & 1)`, rounding an odd tag up
to its even neighbour. -/
def normalizeTag (tag : Nat) : Nat := tag + (tag &&& 1)

/-- Which branch of a blocking `select` in the receive loop fires when a
Message payload is handed to a live stream: the stream accepts the buffer,
the stream's read-cancel fires, the `ReceiveTimeout` timer fires, or the
session shutdown signal fires.  Real time is not modelled; the winning branch
is supplied by the oracle. -/
inductive HandoffOutcome where
  | delivered
  | readCanceled
  | timedOut
  | shutdownFired
  deriving DecidableEq

/-- Oracle input for one receive-loop iteration: the outcome of the Message
hand-off `select`, and whether the `nstreams <- msch` publish in the
NewStream branch wins its race against shutdown. -/
structure FrameOracle where
  handoff : HandoffOutcome
  acceptPublished : Bool
  deriving DecidableEq

/-- Observable actions of one receive-loop iteration, in program order:
consuming a frame from the transport, returning an inbound buffer,
resetting a stream, publishing a freshly accepted stream. -/
inductive Action where
  | readFrame (ch : streamID) (tag : Nat)
  | putBuffer
  | resetStream (ch : streamID)
  | publishStream (ch : streamID)
  deriving DecidableEq

/-- Modelled from the spec: `Stream.Reset` lives in stream.go, which is not
under src/.  Per §4.C it cancels the stream's reads and writes with the
stream-reset error, removes the stream from the session map and closes its
data channel (the best-effort Reset frame emission is asynchronous and not
modelled).  The removed stream's final state is recorded in the ghost
`closedStreams` field. -/
def resetStreamEffect (mp : RecvState) (ch : streamID) : RecvState :=
  match mapLookup mp.channels ch with
  | none => mp
  | some s =>
    let s1 : StreamState :=
      { s with dataInClosed := true, readCancel := some MplexError.streamReset,
               writeCancel := some MplexError.streamReset }
    { mp with channels := mapErase mp.channels ch,
              closedStreams := (ch, s1) :: mp.closedStreams }

/-- Result of one receive-loop iteration: the actions it performed, the
session state and unconsumed transport bytes afterwards, and whether the
loop exits (`return`) instead of continuing. -/
structure StepRes where
  acts : List Action
  st : RecvState
  rest : List Nat
  stop : Bool
  deriving DecidableEq

/-- One iteration of `Multiplex.handleIncoming`: read and split the header,
derive the map key and normalise the tag, read the payload via `readNext`,
look the stream up, and dispatch on the tag exactly as the Go `switch` does.
Header or payload read errors are recorded in `shutdownErr` and exit the
loop.  A NewStream frame for a live stream records `ErrInvalidState` and
exits.  The Message hand-off and the NewStream publish are the only blocking
rendezvous; their winning branch comes from the oracle `o`. -/
def handleFrame (mp : RecvState) (bs : List Nat) (o : FrameOracle) : StepRes :=
  match readNextHeader bs with
  | .error e => { acts := [], st := { mp with shutdownErr := some e }, rest := bs, stop := true }
  | .ok ((chID, rtag), bs1) =>
    let ch := frameStreamID chID rtag
    let tag := normalizeTag rtag
    match readNext mp bs1 with
    | .error e =>
      { acts := [.readFrame ch tag], st := { mp with shutdownErr := some e },
        rest := bs1, stop := true }
    | .ok (b, bs2, mp1) =>
      let known := mapLookup mp1.channels ch
      if tag = newStreamTag then
        match known with
        | some _ =>
          { acts := [.readFrame ch tag],
            st := { mp1 with shutdownErr := some .invalidState }, rest := bs2, stop := true }
        | none =>
          let mp2 := putBufferInbound mp1
          let msch := newStream b
          let mp3 := { mp2 with channels := mapInsert mp2.channels ch msch }
          if o.acceptPublished then
            { acts := [.readFrame ch tag, .putBuffer, .publishStream ch],
              st := { mp3 with nstreams := mp3.nstreams ++ [ch] }, rest := bs2, stop := false }
          else
            { acts := [.readFrame ch tag, .putBuffer], st := mp3, rest := bs2, stop := true }
      else if tag = resetTag then
        match known with
        | none => { acts := [.readFrame ch tag], st := mp1, rest := bs2, stop := false }
        | some msch =>
          let canceled : StreamState :=
            { msch with readCancel := some MplexError.streamReset,
                        writeCancel := some MplexError.streamReset }
          { acts := [.readFrame ch tag],
            st := { mp1 with channels := mapInsert mp1.channels ch canceled },
            rest := bs2, stop := false }
      else if tag = closeTag then
        match known with
        | none => { acts := [.readFrame ch tag], st := mp1, rest := bs2, stop := false }
        | some msch =>
          let closed : StreamState := { msch with dataInClosed := true }
          let st1 : RecvState :=
            { mp1 with channels := mapErase mp1.channels ch,
                       closedStreams := (ch, closed) :: mp1.closedStreams }
          { acts := [.readFrame ch tag], st := st1, rest := bs2, stop := false }
      else if tag = messageTag then
        match known with
        | none =>
          { acts := [.readFrame ch tag, .putBuffer], st := putBufferInbound mp1,
            rest := bs2, stop := false }
        | some msch =>
          match o.handoff with
          | .delivered =>
            let queued : StreamState := { msch with dataIn := msch.dataIn ++ [b] }
            { acts := [.readFrame ch tag],
              st := { mp1 with channels := mapInsert mp1.channels ch queued },
              rest := bs2, stop := false }
          | .readCanceled =>
            { acts := [.readFrame ch tag, .putBuffer], st := putBufferInbound mp1,
              rest := bs2, stop := false }
          | .timedOut =>
            { acts := [.readFrame ch tag, .putBuffer, .resetStream ch],
              st := resetStreamEffect (putBufferInbound mp1) ch, rest := bs2, stop := false }
          | .shutdownFired =>
            { acts := [.readFrame ch tag, .putBuffer], st := putBufferInbound mp1,
              rest := bs2, stop := true }
      else
        match known with
        | none => { acts := [.readFrame ch tag], st := mp1, rest := bs2, stop := false }
        | some _ =>
          { acts := [.readFrame ch tag, .resetStream ch], st := resetStreamEffect mp1 ch,
            rest := bs2, stop := false }

/-- The receive loop, run for one oracle entry per frame: iterate
`handleFrame`, stopping when an iteration exits.  Returns the final state and
the concatenated action trace; concatenation order is the temporal order of
the single-threaded loop. -/
def runLoop (mp : RecvState) (bs : List Nat) : List FrameOracle → RecvState × List Action
  | [] => (mp, [])
  | o :: os =>
    let r := handleFrame mp bs o
    if r.stop then (r.st, r.acts)
    else
      let rec2 := runLoop r.st r.rest os
      (rec2.1, r.acts ++ rec2.2)

/-- Modelled from the spec: `Stream.Read` lives in stream.go, which is not
under src/.  Per §4.C it fails with the reset error once the read-cancel has
fired, otherwise returns the chunk at the head of the inbound queue, returns
EOF when the queue is drained and the data channel is closed, and otherwise
blocks (rendered as the distinguished `timeout` error standing for a blocked
call, which no theorem below relies on). -/
def streamRead (s : StreamState) : Except MplexError (List Nat × StreamState) :=
  match s.readCancel with
  | some e => .error e
  | none =>
    match s.dataIn with
    | b :: rest => .ok (b, { s with dataIn := rest })
    | [] => if s.dataInClosed then .error .eof else .error .timeout

/-- Session state for the `NewNamedStream` model: the stream map (set to
`none` once `cleanup` has cleared it) and the next outbound stream id. -/
structure SessionState where
  channels : Option (List (streamID × StreamState))
  nextID : Nat
  deriving DecidableEq

/-- Decimal stream name `fmt.Sprint(sid)` used when the caller passes an
empty name. -/
def decimalName (n : Nat) : List Nat := (Nat.toDigits 10 n).map Char.toNat

/-- `Multiplex.NewNamedStream`: under the lock, fail with the shutdown error
if the map has been cleared, otherwise allocate the next id, build the header
`(sid << 3) | newStreamTag`, default the name to the decimal id, create the
stream and insert it into the map; then release the lock and send the
NewStream frame.  The send's outcome is the oracle `sendErr` (`none` means
success); a timeout error is surfaced to the caller as the context's error
`ctxErr`, any other error is returned as is.  The returned state is the
session state after the call. -/
def NewNamedStream (st : SessionState) (name : List Nat) (sendErr : Option MplexError)
    (ctxErr : MplexError) : Except MplexError streamID × SessionState :=
  match st.channels with
  | none => (.error .shutdown, st)
  | some chans =>
    let sid := st.nextID
    let _header := ((sid <<< 3) ||| newStreamTag) % 2 ^ 64
    let nm := if name = [] then decimalName sid else name
    let id : streamID := { id := sid, initiator := true }
    let st1 : SessionState :=
      { channels := some (mapInsert chans id (newStream nm)), nextID := sid + 1 }
    match sendErr with
    | none => (.ok id, st1)
    | some e => (if e = .timeout then .error ctxErr else .error e, st1)

/-- Priority passed to `MemoryManager.ReserveMemory` for the reservation made
when `bufs` reservations have already succeeded: 255 for the first slot, 192
for the second, 128 for the rest. -/
def reservePrio (bufs : Nat) : Nat :=
  if bufs = 0 then 255 else if bufs = 1 then 192 else 128

/-- Reservation loop of `NewMultiplex`: up to `n` more reservations of
`2*MaxMessageSize` bytes each, attempted in order; `bufs` counts successes so
far and selects the priority.  The external memory manager's answer to the
i-th attempt is `reserve i` (`none` means success).  Returns the final success
count, the `(size, priority)` list of attempts actually made, and the error
of the failed attempt, if any. -/
def reserveLoopAux (reserve : Nat → Option MplexError) :
    Nat → Nat → Nat × List (Nat × Nat) × Option MplexError
  | 0, bufs => (bufs, [], none)
  | n + 1, bufs =>
    match reserve bufs with
    | none =>
      let r := reserveLoopAux reserve n (bufs + 1)
      (r.1, (2 * MaxMessageSize, reservePrio bufs) :: r.2.1, r.2.2)
    | some e => (bufs, [(2 * MaxMessageSize, reservePrio bufs)], some e)

/-- Observable outcome of `NewMultiplex` construction: the buffer capacity
`bufMax` per direction, the reserved-memory tally, and the reservation calls
made. -/
structure MultiplexInit where
  bufMax : Nat
  reservedMemory : Nat
  attempts : List (Nat × Nat)
  deriving DecidableEq

/-- `NewMultiplex` reservation phase: run the loop for `MaxBuffers` rounds;
if no reservation succeeded return the reservation error (the `getD` default
is unreachable since `MaxBuffers = 4 > 0` forces a recorded error when
`bufs = 0`), otherwise the session starts with `bufMax` equal to the success
count. -/
def NewMultiplex (reserve : Nat → Option MplexError) : Except MplexError MultiplexInit :=
  let r := reserveLoopAux reserve MaxBuffers 0
  if r.1 = 0 then .error (r.2.2.getD .reservationFailed)
  else .ok { bufMax := r.1, reservedMemory := r.1 * (2 * MaxMessageSize), attempts := r.2.1 }

/-- Frame bytes assembled by `Multiplex.sendMsg` into the outbound buffer:
`PutUvarint(header)`, `PutUvarint(uint64(len(data)))`, then the payload; the
buffer requested from the pool has length `len(data) + 20`. -/
def sendMsgBuf (header : Nat) (data : List Nat) : List Nat :=
  putUvarint (header % 2 ^ 64) ++ putUvarint (data.length % 2 ^ 64) ++ data

/-- Header value put on the wire for a frame: the uvarint encoding of the
`uint64` value `(stream_id << 3) | tag`. -/
def encodeHeader (sid tag : Nat) : List Nat :=
  putUvarint (((sid <<< 3) ||| tag) % 2 ^ 64)

instance {ε α : Type} [DecidableEq ε] [DecidableEq α] : DecidableEq (Except ε α) := fun x y =>
  match x, y with
  | .error a, .error b =>
    if h : a = b then isTrue (h ▸ rfl) else isFalse (fun hc => h (by cases hc; rfl))
  | .ok a, .ok b =>
    if h : a = b then isTrue (h ▸ rfl) else isFalse (fun hc => h (by cases hc; rfl))
  | .error _, .ok _ => isFalse (fun hc => Except.noConfusion hc)
  | .ok _, .error _ => isFalse (fun hc => Except.noConfusion hc)

theorem header_or_eq_add {sid tag : Nat} (htag : tag < 8) :
    (sid <<< 3) ||| tag = 8 * sid + tag := by
  have h8 : tag < 2 ^ 3 := lt_of_lt_of_eq htag (by norm_num)
  rw [Nat.or_comm, lor_shiftLeft_eq_add sid 3 h8]
  ring

/-- C4 counterexample: the claim quantifies over every `stream_id`, but for
`stream_id = 2 ^ 60` (and tag 0) the packed header is `2 ^ 63`, which
`varint.ReadUvarint` refuses with `ErrOverflow` — its ninth byte still has
the continuation bit set — so decoding does not return the pair
`(2 ^ 60, 0)`. -/
theorem c4_counterexample :
    readNextHeader (encodeHeader (2 ^ 60) 0) = .error .overflow := by decide

/-- C4 (amended): for every `stream_id < 2 ^ 60` — so that the packed header
`(stream_id << 3) | tag` stays below the decoder's `2 ^ 63` limit — and every
tag in `{0..7}`, encoding the header as the varint of `(stream_id << 3) | tag`
and decoding it with `readNextHeader` (`ch = h >> 3`, `rem = h & 7`) yields
the same pair `(stream_id, tag)`. -/
theorem c4_header_roundtrip (sid tag : Nat) (rest : List Nat)
    (hsid : sid < 2 ^ 60) (htag : tag < 8) :
    readNextHeader (encodeHeader sid tag ++ rest) = .ok ((sid, tag), rest) := by
  have hadd : (sid <<< 3) ||| tag = 8 * sid + tag := header_or_eq_add htag
  have hlt : 8 * sid + tag < 2 ^ 63 := by
    have h63 : (2 : Nat) ^ 63 = 8 * 2 ^ 60 := by norm_num
    omega
  have hmod : ((sid <<< 3) ||| tag) % 2 ^ 64 = 8 * sid + tag := by
    rw [hadd, Nat.mod_eq_of_lt]
    have h64 : (2 : Nat) ^ 63 < 2 ^ 64 := by norm_num
    omega
  have hdiv : (8 * sid + tag) >>> 3 = sid := by
    rw [Nat.shiftRight_eq_div_pow]
    norm_num
    omega
  have hand : (8 * sid + tag) &&& 7 = tag := by
    have h7 : (7 : Nat) = 2 ^ 3 - 1 := by norm_num
    rw [h7, Nat.and_pow_two_sub_one_eq_mod]
    norm_num
    omega
  simp only [readNextHeader, encodeHeader, hmod, readUvarint_putUvarint rest hlt, hdiv, hand]

theorem c4_witness :
    (5 : Nat) < 2 ^ 60 ∧ (3 : Nat) < 8 ∧
    readNextHeader (encodeHeader 5 3 ++ [9]) = .ok ((5, 3), [9]) :=
  ⟨by decide, by decide, c4_header_roundtrip 5 3 [9] (by decide) (by decide)⟩

/-- C7: for every decoded frame header the receive loop derives
`remoteIsInitiator` as `(tag & 1) == 0`, keys the stream map by
`(chID, !remoteIsInitiator)`, and normalises the tag by adding `tag & 1`,
sending tags 0..7 to 0, 2, 2, 4, 4, 6, 6, 8 respectively. -/
theorem c7_tag_derivation :
    (∀ tag : Nat, remoteIsInitiator tag = ((tag &&& 1) == 0)) ∧
    (∀ chID tag : Nat,
      frameStreamID chID tag = { id := chID, initiator := !remoteIsInitiator tag }) ∧
    (List.range 8).map normalizeTag = [0, 2, 2, 4, 4, 6, 6, 8] :=
  ⟨fun _ => rfl, fun _ _ => rfl, by decide⟩

/-- C10: the outbound buffer `sendMsg` requests has length `len(data) + 20`,
and the assembled frame — header uvarint (at most 10 bytes for a `uint64`),
length uvarint (at most 10 bytes), payload copy — never exceeds it, for every
header value and every payload; hence the buffer writes stay in bounds and
the enqueued slice `buf[:n]` exists. -/
theorem c10_sendMsg_buffer_bound (header : Nat) (data : List Nat) :
    (sendMsgBuf header data).length ≤ data.length + 20 := by
  have h1 : (putUvarint (header % 2 ^ 64)).length ≤ 10 :=
    putUvarint_length (Nat.mod_lt _ (by norm_num))
  have h2 : (putUvarint (data.length % 2 ^ 64)).length ≤ 10 :=
    putUvarint_length (Nat.mod_lt _ (by norm_num))
  simp only [sendMsgBuf, List.length_append]
  omega

/-- Inversion for a successful `readNext`: the returned state only ever
differs from the input state in the inbound-slot count, which is unchanged
exactly when the payload is empty (length 0 acquires no slot) and incremented
by one otherwise. -/
theorem readNext_ok_inv {mp mp1 : RecvState} {bs b rest2 : List Nat}
    (h : readNext mp bs = .ok (b, rest2, mp1)) :
    mp1.channels = mp.channels ∧ mp1.shutdownErr = mp.shutdownErr ∧
    mp1.nstreams = mp.nstreams ∧ mp1.closedStreams = mp.closedStreams ∧
    (b = [] → mp1 = mp) ∧
    (b ≠ [] → mp1 = { mp with slotsIn := mp.slotsIn + 1 }) := by
  unfold readNext at h
  split at h
  · exact absurd h (by simp)
  · rename_i l rest heq
    by_cases h1 : MaxMessageSize < l
    · rw [if_pos h1] at h
      exact absurd h (by simp)
    · rw [if_neg h1] at h
      by_cases h2 : l = 0
      · rw [if_pos h2] at h
        simp only [Except.ok.injEq, Prod.mk.injEq] at h
        obtain ⟨hb, _, hmp⟩ := h
        subst hmp
        refine ⟨rfl, rfl, rfl, rfl, fun _ => rfl, fun hne => absurd hb.symm hne⟩
      · rw [if_neg h2] at h
        by_cases h3 : rest.length < l
        · rw [if_pos h3] at h
          exact absurd h (by simp)
        · rw [if_neg h3] at h
          simp only [Except.ok.injEq, Prod.mk.injEq] at h
          obtain ⟨hb, _, hmp⟩ := h
          subst hmp
          refine ⟨rfl, rfl, rfl, rfl, fun hnil => ?_, fun _ => rfl⟩
          rw [← hb, List.take_eq_nil_iff] at hnil
          rcases hnil with hl0 | hr0
          · omega
          · subst hr0
            simp at h3
            omega

/-- C2: a Message length declared exactly `MaxMessageSize` is accepted by
`readNext` (payload read in full, one inbound slot acquired), while a length
strictly greater makes `readNext` fail with the message-size error, which the
receive loop records as `shutdownErr` and then exits, so the session
terminates via cleanup. -/
theorem c2_length_bound (mp : RecvState) (data tail bs : List Nat) (l chID rtag : Nat)
    (o : FrameOracle) (os : List FrameOracle)
    (hdata : data.length = MaxMessageSize)
    (hl : MaxMessageSize < l) (hl63 : l < 2 ^ 63)
    (hhdr : readNextHeader bs = .ok ((chID, rtag), putUvarint l ++ tail)) :
    readNext mp (putUvarint MaxMessageSize ++ (data ++ tail))
      = .ok (data, tail, { mp with slotsIn := mp.slotsIn + 1 }) ∧
    readNext mp (putUvarint l ++ tail) = .error .messageTooLarge ∧
    handleFrame mp bs o =
      { acts := [.readFrame (frameStreamID chID rtag) (normalizeTag rtag)],
        st := { mp with shutdownErr := some .messageTooLarge },
        rest := putUvarint l ++ tail, stop := true } ∧
    runLoop mp bs (o :: os)
      = ({ mp with shutdownErr := some .messageTooLarge },
         [.readFrame (frameStreamID chID rtag) (normalizeTag rtag)]) := by
  have hacc : readNext mp (putUvarint MaxMessageSize ++ (data ++ tail))
      = .ok (data, tail, { mp with slotsIn := mp.slotsIn + 1 }) := by
    have hM63 : MaxMessageSize < 2 ^ 63 := by decide
    have hlen : ¬ (data ++ tail).length < MaxMessageSize := by
      rw [List.length_append]
      omega
    simp only [readNext, readUvarint_putUvarint (data ++ tail) hM63,
      if_neg (lt_irrefl MaxMessageSize), if_neg (by decide : ¬ MaxMessageSize = 0),
      if_neg hlen, List.take_left' hdata, List.drop_left' hdata]
  have hrej : readNext mp (putUvarint l ++ tail) = .error .messageTooLarge := by
    simp only [readNext, readUvarint_putUvarint tail hl63, if_pos hl]
  have hstep : handleFrame mp bs o =
      { acts := [.readFrame (frameStreamID chID rtag) (normalizeTag rtag)],
        st := { mp with shutdownErr := some .messageTooLarge },
        rest := putUvarint l ++ tail, stop := true } := by
    simp only [handleFrame, hhdr, hrej]
  refine ⟨hacc, hrej, hstep, ?_⟩
  simp [runLoop, hstep]

/-- C8: a NewStream frame whose derived stream id is already in the session
map makes the receive loop set the shutdown cause to `ErrInvalidState` and
exit the loop (cleanup then terminates the session), leaving the stream map
exactly as it was: no stream is created or replaced. -/
theorem c8_duplicate_newstream (mp mp1 : RecvState) (bs bs1 bs2 b : List Nat)
    (chID rtag : Nat) (s : StreamState) (o : FrameOracle) (os : List FrameOracle)
    (hhdr : readNextHeader bs = .ok ((chID, rtag), bs1))
    (htag : normalizeTag rtag = newStreamTag)
    (hrn : readNext mp bs1 = .ok (b, bs2, mp1))
    (hs : mapLookup mp1.channels (frameStreamID chID rtag) = some s) :
    handleFrame mp bs o =
      { acts := [.readFrame (frameStreamID chID rtag) newStreamTag],
        st := { mp1 with shutdownErr := some .invalidState }, rest := bs2, stop := true } ∧
    (handleFrame mp bs o).st.channels = mp.channels ∧
    runLoop mp bs (o :: os)
      = ({ mp1 with shutdownErr := some .invalidState },
         [.readFrame (frameStreamID chID rtag) newStreamTag]) := by
  have hstep : handleFrame mp bs o =
      { acts := [.readFrame (frameStreamID chID rtag) newStreamTag],
        st := { mp1 with shutdownErr := some .invalidState }, rest := bs2, stop := true } := by
    simp [handleFrame, hhdr, hrn, htag, hs]
  refine ⟨hstep, ?_, ?_⟩
  · rw [hstep]
    exact (readNext_ok_inv hrn).1
  · simp [runLoop, hstep]

/-- C5: when the hand-off of a Message payload to a live stream's inbound
queue times out, the receive loop returns the buffer (`putBufferInbound`),
resets that stream synchronously, and only then continues with the remaining
frames: in the loop's trace the buffer return and the reset precede every
action of every subsequent frame, so no frame is consumed between the timeout
and the reset. -/
theorem c5_timeout_sync_reset (mp mp1 : RecvState) (bs bs1 bs2 b : List Nat)
    (chID rtag : Nat) (s : StreamState) (o : FrameOracle) (os : List FrameOracle)
    (hhdr : readNextHeader bs = .ok ((chID, rtag), bs1))
    (htag : normalizeTag rtag = messageTag)
    (hrn : readNext mp bs1 = .ok (b, bs2, mp1))
    (hs : mapLookup mp1.channels (frameStreamID chID rtag) = some s)
    (ho : o.handoff = .timedOut) :
    handleFrame mp bs o =
      { acts := [.readFrame (frameStreamID chID rtag) messageTag, .putBuffer,
                 .resetStream (frameStreamID chID rtag)],
        st := resetStreamEffect (putBufferInbound mp1) (frameStreamID chID rtag),
        rest := bs2, stop := false } ∧
    runLoop mp bs (o :: os)
      = ((runLoop (resetStreamEffect (putBufferInbound mp1) (frameStreamID chID rtag)) bs2 os).1,
         [.readFrame (frameStreamID chID rtag) messageTag, .putBuffer,
          .resetStream (frameStreamID chID rtag)]
           ++ (runLoop (resetStreamEffect (putBufferInbound mp1) (frameStreamID chID rtag)) bs2 os).2) := by
  have hstep : handleFrame mp bs o =
      { acts := [.readFrame (frameStreamID chID rtag) messageTag, .putBuffer,
                 .resetStream (frameStreamID chID rtag)],
        st := resetStreamEffect (putBufferInbound mp1) (frameStreamID chID rtag),
        rest := bs2, stop := false } := by
    simp [handleFrame, hhdr, hrn, htag, hs, ho, messageTag, newStreamTag, resetTag, closeTag]
  refine ⟨hstep, ?_⟩
  simp [runLoop, hstep]

/-- C6: a Close frame for a live stream removes the stream from the map and
closes its data channel, and does nothing else: the queue contents, the
read-cancel and write-cancel signals and both deadlines are untouched, no
reset is issued, and — the empty payload having occupied no inbound slot —
the inbound-slot occupancy is exactly what it was before the frame. -/
theorem c6_close_frame (mp mp1 : RecvState) (bs bs1 bs2 : List Nat)
    (chID rtag : Nat) (s : StreamState) (o : FrameOracle)
    (hhdr : readNextHeader bs = .ok ((chID, rtag), bs1))
    (htag : normalizeTag rtag = closeTag)
    (hrn : readNext mp bs1 = .ok ([], bs2, mp1))
    (hs : mapLookup mp.channels (frameStreamID chID rtag) = some s) :
    handleFrame mp bs o =
      { acts := [.readFrame (frameStreamID chID rtag) closeTag],
        st := { mp with
                  channels := mapErase mp.channels (frameStreamID chID rtag),
                  closedStreams := (frameStreamID chID rtag,
                    { s with dataInClosed := true }) :: mp.closedStreams },
        rest := bs2, stop := false } ∧
    (handleFrame mp bs o).st.slotsIn = mp.slotsIn ∧
    ({ s with dataInClosed := true } : StreamState).dataIn = s.dataIn ∧
    ({ s with dataInClosed := true } : StreamState).readCancel = s.readCancel ∧
    ({ s with dataInClosed := true } : StreamState).writeCancel = s.writeCancel ∧
    ({ s with dataInClosed := true } : StreamState).rDeadline = s.rDeadline ∧
    ({ s with dataInClosed := true } : StreamState).wDeadline = s.wDeadline ∧
    Action.putBuffer ∉ (handleFrame mp bs o).acts ∧
    Action.resetStream (frameStreamID chID rtag) ∉ (handleFrame mp bs o).acts := by
  have hmp1 : mp = mp1 := ((readNext_ok_inv hrn).2.2.2.2.1 rfl).symm
  subst hmp1
  have hstep : handleFrame mp bs o =
      { acts := [.readFrame (frameStreamID chID rtag) closeTag],
        st := { mp with
                  channels := mapErase mp.channels (frameStreamID chID rtag),
                  closedStreams := (frameStreamID chID rtag,
                    { s with dataInClosed := true }) :: mp.closedStreams },
        rest := bs2, stop := false } := by
    simp [handleFrame, hhdr, hrn, htag, hs, messageTag, newStreamTag, resetTag, closeTag]
  refine ⟨hstep, ?_, rfl, rfl, rfl, rfl, rfl, ?_, ?_⟩
  · rw [hstep]
  · rw [hstep]
    simp
  · rw [hstep]
    simp

/-- C9: a Message frame declaring length 0 is valid: `readNext` succeeds with
a nil payload and acquires no inbound slot (the returned state is unchanged),
the receive loop hands the zero-length chunk to the live stream's inbound
queue, and a subsequent read returns that zero-length chunk rather than an
error. -/
theorem c9_zero_length_message (mp : RecvState) (bs tail : List Nat)
    (chID rtag : Nat) (s : StreamState) (o : FrameOracle)
    (hhdr : readNextHeader bs = .ok ((chID, rtag), putUvarint 0 ++ tail))
    (htag : normalizeTag rtag = messageTag)
    (hs : mapLookup mp.channels (frameStreamID chID rtag) = some s)
    (hq : s.dataIn = []) (hrc : s.readCancel = none)
    (ho : o.handoff = .delivered) :
    readNext mp (putUvarint 0 ++ tail) = .ok ([], tail, mp) ∧
    handleFrame mp bs o =
      { acts := [.readFrame (frameStreamID chID rtag) messageTag],
        st := { mp with
                  channels := mapInsert mp.channels (frameStreamID chID rtag)
                    { s with dataIn := [[]] } },
        rest := tail, stop := false } ∧
    streamRead { s with dataIn := [[]] } = .ok ([], { s with dataIn := [] }) := by
  have hread : readNext mp (putUvarint 0 ++ tail) = .ok ([], tail, mp) := by
    simp only [readNext, readUvarint_putUvarint tail (by norm_num : (0 : Nat) < 2 ^ 63)]
    simp [MaxMessageSize]
  refine ⟨hread, ?_, ?_⟩
  · simp [handleFrame, hhdr, hread, htag, hs, ho, hq,
      messageTag, newStreamTag, resetTag, closeTag]
  · simp [streamRead, hrc]

/-- C1 counterexample: starting from a session with an empty stream map and
next id 0, a `NewNamedStream` whose frame send fails (here with the shutdown
error) does return that error to the caller, but the newly created stream is
still registered in the stream map afterwards — `NewNamedStream` has no
removal path, so the claim that the stream is removed under the lock on send
failure is false. -/
theorem c1_counterexample :
    (NewNamedStream ⟨some [], 0⟩ [120] (some .shutdown) .ctxCanceled).1
        = .error .shutdown ∧
    mapLookup (((NewNamedStream ⟨some [], 0⟩ [120] (some .shutdown) .ctxCanceled).2).channels.getD [])
        ⟨0, true⟩ = some (newStream [120]) := by
  decide

/-- C1 (amended): when the `NewStream` frame send fails, the caller receives
that error (the caller's context error when the failure is the send timeout),
but the stream is not removed: the session map afterwards still contains the
newly inserted stream under its fresh id, exactly as after a successful
send. -/
theorem c1_send_failure_keeps_stream (st : SessionState)
    (chans : List (streamID × StreamState)) (name : List Nat) (e ctxErr : MplexError)
    (hch : st.channels = some chans) :
    (NewNamedStream st name (some e) ctxErr).1
        = .error (if e = .timeout then ctxErr else e) ∧
    (NewNamedStream st name (some e) ctxErr).2.channels
        = some (mapInsert chans ⟨st.nextID, true⟩
            (newStream (if name = [] then decimalName st.nextID else name))) := by
  by_cases hn : name = [] <;> by_cases he : e = MplexError.timeout <;>
    simp [NewNamedStream, hch, hn, he]

theorem c1_witness :
    (⟨some [], 5⟩ : SessionState).channels = some [] ∧
    (NewNamedStream ⟨some [], 5⟩ [104] (some .eof) .ctxCanceled).1
        = .error (if MplexError.eof = .timeout then MplexError.ctxCanceled else MplexError.eof) ∧
    (NewNamedStream ⟨some [], 5⟩ [104] (some .eof) .ctxCanceled).2.channels
        = some (mapInsert [] ⟨5, true⟩
            (newStream (if ([104] : List Nat) = [] then decimalName 5 else [104]))) :=
  ⟨rfl,
   (c1_send_failure_keeps_stream ⟨some [], 5⟩ [] [104] .eof .ctxCanceled rfl).1,
   (c1_send_failure_keeps_stream ⟨some [], 5⟩ [] [104] .eof .ctxCanceled rfl).2⟩

/-- C3: `NewMultiplex` attempts reservations of `2*MaxMessageSize` bytes in
order with priorities 255, 192, 128, 128, ...; if the first failure is
attempt `k` the buffer capacity is capped at `bufMax = k`, and if the very
first reservation fails (`k = 0`) the constructor returns the reservation
error and no session. -/
theorem c3_reservation (reserve : Nat → Option MplexError) (k : Nat) (e : MplexError)
    (hk : k < MaxBuffers)
    (hsucc : ∀ i, i < k → reserve i = none)
    (hfail : reserve k = some e) :
    (k = 0 → NewMultiplex reserve = .error e) ∧
    (0 < k → NewMultiplex reserve
        = .ok { bufMax := k, reservedMemory := k * (2 * MaxMessageSize),
                attempts := (List.range (k + 1)).map
                  (fun i => (2 * MaxMessageSize, reservePrio i)) }) ∧
    reservePrio 0 = 255 ∧ reservePrio 1 = 192 ∧ (∀ i, 2 ≤ i → reservePrio i = 128) := by
  have hk4 : k < 4 := hk
  refine ⟨?_, ?_, rfl, rfl, fun i hi => ?_⟩
  · intro hk0
    subst hk0
    simp [NewMultiplex, MaxBuffers, reserveLoopAux, hfail]
  · intro hkpos
    interval_cases k
    · have h0 := hsucc 0 (by omega)
      simp [NewMultiplex, MaxBuffers, reserveLoopAux, h0, hfail, reservePrio, List.range_succ]
    · have h0 := hsucc 0 (by omega)
      have h1 := hsucc 1 (by omega)
      simp [NewMultiplex, MaxBuffers, reserveLoopAux, h0, h1, hfail, reservePrio, List.range_succ]
    · have h0 := hsucc 0 (by omega)
      have h1 := hsucc 1 (by omega)
      have h2 := hsucc 2 (by omega)
      simp [NewMultiplex, MaxBuffers, reserveLoopAux, h0, h1, h2, hfail, reservePrio,
        List.range_succ]
  · unfold reservePrio
    rw [if_neg (by omega), if_neg (by omega)]

theorem c3_witness :
    (2 : Nat) < MaxBuffers ∧
    (∀ i, i < 2 → (fun j => if j < 2 then none else some MplexError.reservationFailed) i = none) ∧
    (fun j => if j < 2 then none else some MplexError.reservationFailed) 2
        = some MplexError.reservationFailed ∧
    NewMultiplex (fun j => if j < 2 then none else some MplexError.reservationFailed)
      = .ok { bufMax := 2, reservedMemory := 2 * (2 * MaxMessageSize),
              attempts := (List.range (2 + 1)).map
                (fun i => (2 * MaxMessageSize, reservePrio i)) } :=
  ⟨by decide, by decide, by decide,
   (c3_reservation (fun j => if j < 2 then none else some MplexError.reservationFailed) 2
     MplexError.reservationFailed (by decide) (by decide) (by decide)).2.1 (by decide)⟩

theorem c2_witness :
    (List.replicate MaxMessageSize 0).length = MaxMessageSize ∧
    MaxMessageSize < MaxMessageSize + 1 ∧
    MaxMessageSize + 1 < 2 ^ 63 ∧
    readNextHeader ([10] ++ putUvarint (MaxMessageSize + 1))
      = .ok ((1, 2), putUvarint (MaxMessageSize + 1) ++ []) ∧
    runLoop ⟨[], 0, none, [], []⟩ ([10] ++ putUvarint (MaxMessageSize + 1))
        [⟨HandoffOutcome.delivered, true⟩]
      = (⟨[], 0, some MplexError.messageTooLarge, [], []⟩,
         [Action.readFrame (frameStreamID 1 2) (normalizeTag 2)]) :=
  ⟨by simp, by decide, by decide, by decide,
   (c2_length_bound ⟨[], 0, none, [], []⟩ (List.replicate MaxMessageSize 0) []
     ([10] ++ putUvarint (MaxMessageSize + 1)) (MaxMessageSize + 1) 1 2
     ⟨HandoffOutcome.delivered, true⟩ [] (by simp) (by decide) (by decide) (by decide)).2.2.2⟩

theorem c5_witness :
    readNextHeader [10, 1, 7] = .ok ((1, 2), [1, 7]) ∧
    normalizeTag 2 = messageTag ∧
    readNext ⟨[(⟨1, false⟩, newStream [115])], 1, none, [], []⟩ [1, 7]
      = .ok ([7], [], ⟨[(⟨1, false⟩, newStream [115])], 2, none, [], []⟩) ∧
    mapLookup [(⟨1, false⟩, newStream [115])] (frameStreamID 1 2) = some (newStream [115]) ∧
    (⟨HandoffOutcome.timedOut, true⟩ : FrameOracle).handoff = HandoffOutcome.timedOut ∧
    runLoop ⟨[(⟨1, false⟩, newStream [115])], 1, none, [], []⟩ [10, 1, 7]
        [⟨HandoffOutcome.timedOut, true⟩]
      = ((runLoop (resetStreamEffect
            (putBufferInbound ⟨[(⟨1, false⟩, newStream [115])], 2, none, [], []⟩)
            (frameStreamID 1 2)) [] []).1,
         [Action.readFrame (frameStreamID 1 2) messageTag, Action.putBuffer,
          Action.resetStream (frameStreamID 1 2)]
           ++ (runLoop (resetStreamEffect
                (putBufferInbound ⟨[(⟨1, false⟩, newStream [115])], 2, none, [], []⟩)
                (frameStreamID 1 2)) [] []).2) :=
  ⟨by decide, by decide, by decide, by decide, rfl,
   (c5_timeout_sync_reset ⟨[(⟨1, false⟩, newStream [115])], 1, none, [], []⟩
     ⟨[(⟨1, false⟩, newStream [115])], 2, none, [], []⟩ [10, 1, 7] [1, 7] [] [7] 1 2
     (newStream [115]) ⟨HandoffOutcome.timedOut, true⟩ []
     (by decide) (by decide) (by decide) (by decide) rfl).2⟩

theorem c6_witness :
    readNextHeader [20, 0] = .ok ((2, 4), [0]) ∧
    normalizeTag 4 = closeTag ∧
    readNext ⟨[(⟨2, false⟩, ⟨[97], [[1]], false, none, none, some 9, none⟩)], 3, none, [], []⟩ [0]
      = .ok ([], [],
          ⟨[(⟨2, false⟩, ⟨[97], [[1]], false, none, none, some 9, none⟩)], 3, none, [], []⟩) ∧
    mapLookup [(⟨2, false⟩, ⟨[97], [[1]], false, none, none, some 9, none⟩)] (frameStreamID 2 4)
      = some ⟨[97], [[1]], false, none, none, some 9, none⟩ ∧
    (handleFrame ⟨[(⟨2, false⟩, ⟨[97], [[1]], false, none, none, some 9, none⟩)], 3, none, [], []⟩
        [20, 0] ⟨HandoffOutcome.delivered, true⟩).st.slotsIn
      = (⟨[(⟨2, false⟩, ⟨[97], [[1]], false, none, none, some 9, none⟩)], 3, none, [], []⟩
          : RecvState).slotsIn :=
  ⟨by decide, by decide, by decide, by decide,
   (c6_close_frame ⟨[(⟨2, false⟩, ⟨[97], [[1]], false, none, none, some 9, none⟩)], 3, none, [], []⟩
     ⟨[(⟨2, false⟩, ⟨[97], [[1]], false, none, none, some 9, none⟩)], 3, none, [], []⟩
     [20, 0] [0] [] 2 4 ⟨[97], [[1]], false, none, none, some 9, none⟩
     ⟨HandoffOutcome.delivered, true⟩
     (by decide) (by decide) (by decide) (by decide)).2.1⟩

theorem c8_witness :
    readNextHeader [8, 1, 110] = .ok ((1, 0), [1, 110]) ∧
    normalizeTag 0 = newStreamTag ∧
    readNext ⟨[(⟨1, false⟩, newStream [97])], 0, none, [], []⟩ [1, 110]
      = .ok ([110], [], ⟨[(⟨1, false⟩, newStream [97])], 1, none, [], []⟩) ∧
    mapLookup [(⟨1, false⟩, newStream [97])] (frameStreamID 1 0) = some (newStream [97]) ∧
    runLoop ⟨[(⟨1, false⟩, newStream [97])], 0, none, [], []⟩ [8, 1, 110]
        [⟨HandoffOutcome.delivered, true⟩]
      = (⟨[(⟨1, false⟩, newStream [97])], 1, some MplexError.invalidState, [], []⟩,
         [Action.readFrame (frameStreamID 1 0) newStreamTag]) :=
  ⟨by decide, by decide, by decide, by decide,
   (c8_duplicate_newstream ⟨[(⟨1, false⟩, newStream [97])], 0, none, [], []⟩
     ⟨[(⟨1, false⟩, newStream [97])], 1, none, [], []⟩ [8, 1, 110] [1, 110] [] [110] 1 0
     (newStream [97]) ⟨HandoffOutcome.delivered, true⟩ []
     (by decide) (by decide) (by decide) (by decide)).2.2⟩

theorem c9_witness :
    readNextHeader [10, 0] = .ok ((1, 2), putUvarint 0 ++ []) ∧
    normalizeTag 2 = messageTag ∧
    mapLookup [(⟨1, false⟩, newStream [110])] (frameStreamID 1 2) = some (newStream [110]) ∧
    (newStream [110]).dataIn = [] ∧
    (newStream [110]).readCancel = none ∧
    (⟨HandoffOutcome.delivered, true⟩ : FrameOracle).handoff = HandoffOutcome.delivered ∧
    streamRead { newStream [110] with dataIn := [[]] }
      = .ok ([], { newStream [110] with dataIn := [] }) :=
  ⟨by decide, by decide, by decide, rfl, rfl, rfl,
   (c9_zero_length_message ⟨[(⟨1, false⟩, newStream [110])], 0, none, [], []⟩ [10, 0] [] 1 2
     (newStream [110]) ⟨HandoffOutcome.delivered, true⟩
     (by decide) (by decide) (by decide) rfl rfl rfl).2.2⟩
